import Mathlib

set_option maxHeartbeats 1000000

/-!
Shallow embedding of the goonlock repository (iPhone camera detector with
macOS Messages automation): `macos_messenger.py`, `iphone_detector.py`
and `config_gui.py`.  Python strings are modelled as `List Char`,
Python floats (`time.time()` values, confidences, contour areas) as `ℚ`,
and Python ints as `ℤ`.  External effects (OpenCV primitives, subprocess
calls, the Tk event loop) are modelled by explicit parameters carrying
their observable outcomes.
-/

/-- Python strings, modelled as lists of characters. -/
abbrev PyStr := List Char

/-- The separator characters removed by the chained `.replace(c, '')` calls
in `MacOSMessenger._format_recipient` (macos_messenger.py line 84). -/
def isSeparator (c : Char) : Bool :=
  c == '+' || c == '-' || c == ' ' || c == '(' || c == ')'

/-- The chained `recipient.replace('+','').replace('-','').replace(' ','')
.replace('(','').replace(')','')` of macos_messenger.py line 84: removing
each of the five characters is the same as filtering them all out. -/
def stripSeparators (s : PyStr) : PyStr :=
  s.filter (fun c => !(isSeparator c))

/-- Python `str.isdigit()` on the ASCII strings this program handles:
true iff the string is non-empty and every character is a digit. -/
def pyIsdigit (s : PyStr) : Bool :=
  !s.isEmpty && s.all Char.isDigit

/-- The comprehension `''.join(c for c in recipient if c.isdigit() or c == '+')`
of macos_messenger.py line 87. -/
def digitsAndPlus (s : PyStr) : PyStr :=
  s.filter (fun c => c.isDigit || c == '+')

/-- `MacOSMessenger._format_recipient` (macos_messenger.py lines 81-96). -/
def format_recipient (recipient : PyStr) : PyStr :=
  if pyIsdigit (stripSeparators recipient) then
    let phone := digitsAndPlus recipient
    if phone.length = 10 then '+' :: '1' :: phone
    else if phone.length = 11 ∧ phone.head? = some '1' then '+' :: phone
    else phone
  else recipient

/-- Mutable state of a `MacOSMessenger` instance (macos_messenger.py
lines 17-20): the timestamp of the last successfully sent message and the
cooldown length, both Python floats/ints modelled as rationals. -/
structure MessengerState where
  last_message_time : ℚ
  message_cooldown : ℚ
deriving DecidableEq

/-- Observable outcome of one `subprocess.run(['osascript', ...])`
invocation: exit code 0, a nonzero exit code, a raised
`subprocess.TimeoutExpired`, or another raised exception. -/
inductive ScriptOutcome where
  | ok
  | fail
  | timeout
  | exc
deriving DecidableEq

/-- `MacOSMessenger._send_message_alternative` (macos_messenger.py lines
98-138), parameterised by the outcome of its single `subprocess.run` call:
it returns True on exit code 0 and otherwise logs and returns False (a
nonzero exit code hits the else branch; timeouts and other exceptions are
caught by its generic `except Exception` handler). -/
def send_message_alternative (alt : ScriptOutcome) : Bool :=
  match alt with
  | .ok => true
  | .fail => false
  | .timeout => false
  | .exc => false

/-- `MacOSMessenger.send_message` (macos_messenger.py lines 22-79),
parameterised by the outcomes of the primary `subprocess.run` call and of
the one inside `_send_message_alternative`.  Result: the returned Bool,
paired with whether `_send_message_alternative` was invoked.  On exit
code 0 it returns True; on a nonzero exit code it logs and returns
`self._send_message_alternative(...)`; `subprocess.TimeoutExpired` and
other exceptions are caught and yield False with no alternative attempt. -/
def send_message (primary alt : ScriptOutcome) : Bool × Bool :=
  match primary with
  | .ok => (true, false)
  | .fail => (send_message_alternative alt, true)
  | .timeout => (false, false)
  | .exc => (false, false)

/-- `MacOSMessenger.send_notification_with_cooldown` (macos_messenger.py
lines 148-170), parameterised by `current_time` (the value of
`time.time()`) and by the Bool that the inner `send_message` call would
return.  Result: the returned Bool, the messenger state after the call,
and whether a send was attempted at all. -/
def send_notification_with_cooldown (st : MessengerState) (current_time : ℚ)
    (sendResult : Bool) : Bool × MessengerState × Bool :=
  if current_time - st.last_message_time < st.message_cooldown then
    (false, st, false)
  else
    let success := sendResult
    (success,
     if success then { st with last_message_time := current_time } else st,
     true)

/-- The `detection_area` entry of the detector configuration
(iphone_detector.py lines 55-61). -/
structure DetectionArea where
  enabled : Bool
  x : ℤ
  y : ℤ
  width : ℤ
  height : ℤ
deriving DecidableEq

/-- The configuration entries of `iPhoneDetector` that its detection and
message stages read (iphone_detector.py lines 48-62).  The two recipient
entries are `Option` so that `config.get(key)` returning `None` for a
missing key is representable. -/
structure DetectorConfig where
  detection_confidence : ℚ
  detection_area : DetectionArea
  recipient_phone_number : Option PyStr
  recipient_email : Option PyStr
deriving DecidableEq

/-- `iPhoneDetector.is_in_detection_area` (iphone_detector.py lines
244-251).  The chained Python comparison `a <= x <= b` is the conjunction
of the two comparisons. -/
def is_in_detection_area (cfg : DetectorConfig) (x y w h : ℤ) : Bool :=
  if cfg.detection_area.enabled = false then
    true
  else
    decide (cfg.detection_area.x ≤ x ∧ x ≤ cfg.detection_area.x + cfg.detection_area.width ∧
            cfg.detection_area.y ≤ y ∧ y ≤ cfg.detection_area.y + cfg.detection_area.height)

/-- The aspect-ratio gate `0.4 <= w / h <= 0.7` shared by the three
detectors, with Python float division modelled as exact rational
division (the callers only reach it with h nonzero). -/
def aspect_ratio_ok (w h : ℤ) : Bool :=
  decide ((2 : ℚ)/5 ≤ (w : ℚ)/(h : ℚ)) && decide ((w : ℚ)/(h : ℚ) ≤ (7 : ℚ)/10)

/-- A bounding box `(x, y, w, h)` as returned by `cv2.boundingRect`. -/
abbrev BBox := ℤ × ℤ × ℤ × ℤ

/-- The `(detected, confidence, bounding_box)` triple each detection
method returns. -/
abbrev DetectResult := Bool × ℚ × BBox

/-- The `(False, 0.0, (0, 0, 0, 0))` triple returned when nothing is
detected or an exception is caught. -/
def noDetection : DetectResult := (false, 0, (0, 0, 0, 0))

/-- The features of one contour that `template_matching_detection`
inspects: the vertex count of `cv2.approxPolyDP` and the
`cv2.boundingRect` of the contour. -/
structure TemplateContour where
  approx_len : ℕ
  x : ℤ
  y : ℤ
  w : ℤ
  h : ℤ
deriving DecidableEq

/-- The features of one contour that `color_based_detection` inspects:
`cv2.contourArea` and `cv2.boundingRect`. -/
structure ColorContour where
  area : ℚ
  x : ℤ
  y : ℤ
  w : ℤ
  h : ℤ
deriving DecidableEq

/-- The features of one contour that `shape_based_detection` inspects:
`cv2.contourArea`, the area of the convex hull, and `cv2.boundingRect`. -/
structure ShapeContour where
  area : ℚ
  hull_area : ℚ
  x : ℤ
  y : ℤ
  w : ℤ
  h : ℤ
deriving DecidableEq

/-- Abstraction of one camera frame: the contour features each of the
three OpenCV pipelines extracts from it, plus a flag per pipeline marking
whether the OpenCV calls themselves raise (the `except` branches). -/
structure FrameFeatures where
  template_err : Bool
  template_contours : List TemplateContour
  color_err : Bool
  color_contours : List ColorContour
  shape_err : Bool
  shape_contours : List ShapeContour

/-- The contour loop of `iPhoneDetector.template_matching_detection`
(iphone_detector.py lines 143-159).  A contour with `h = 0` makes the
Python division `w / h` raise `ZeroDivisionError`, which the surrounding
`except` catches, returning the no-detection triple; the loop returns on
the first contour passing all gates and otherwise falls through. -/
def template_scan (cfg : DetectorConfig) : List TemplateContour → DetectResult
  | [] => noDetection
  | c :: rest =>
    if c.approx_len = 4 then
      if c.h = 0 then noDetection
      else if aspect_ratio_ok c.w c.h && decide (50 < c.w) && decide (80 < c.h) then
        if is_in_detection_area cfg c.x c.y c.w c.h then
          (true, 3/5, (c.x, c.y, c.w, c.h))
        else template_scan cfg rest
      else template_scan cfg rest
    else template_scan cfg rest

/-- `iPhoneDetector.template_matching_detection` (iphone_detector.py lines
132-162): an exception from the OpenCV calls yields the no-detection
triple, otherwise the contour loop runs. -/
def template_matching_detection (cfg : DetectorConfig) (frame : FrameFeatures) : DetectResult :=
  if frame.template_err then noDetection
  else template_scan cfg frame.template_contours

/-- The contour loop of `iPhoneDetector.color_based_detection`
(iphone_detector.py lines 192-203), with the same `ZeroDivisionError`
convention as `template_scan`. -/
def color_scan (cfg : DetectorConfig) : List ColorContour → DetectResult
  | [] => noDetection
  | c :: rest =>
    if decide (1000 < c.area) then
      if c.h = 0 then noDetection
      else if aspect_ratio_ok c.w c.h then
        if is_in_detection_area cfg c.x c.y c.w c.h then
          (true, 1/2, (c.x, c.y, c.w, c.h))
        else color_scan cfg rest
      else color_scan cfg rest
    else color_scan cfg rest

/-- `iPhoneDetector.color_based_detection` (iphone_detector.py lines
164-206). -/
def color_based_detection (cfg : DetectorConfig) (frame : FrameFeatures) : DetectResult :=
  if frame.color_err then noDetection
  else color_scan cfg frame.color_contours

/-- The contour loop of `iPhoneDetector.shape_based_detection`
(iphone_detector.py lines 222-239): `solidity = area / hull_area if
hull_area > 0 else 0`, and the gate is `solidity > 0.7`. -/
def shape_scan (cfg : DetectorConfig) : List ShapeContour → DetectResult
  | [] => noDetection
  | c :: rest =>
    if decide (2000 < c.area) then
      if c.h = 0 then noDetection
      else if aspect_ratio_ok c.w c.h && decide (60 < c.w) && decide (100 < c.h) then
        if decide ((7 : ℚ)/10 < (if 0 < c.hull_area then c.area / c.hull_area else 0)) then
          if is_in_detection_area cfg c.x c.y c.w c.h then
            (true, 2/5, (c.x, c.y, c.w, c.h))
          else shape_scan cfg rest
        else shape_scan cfg rest
      else shape_scan cfg rest
    else shape_scan cfg rest

/-- `iPhoneDetector.shape_based_detection` (iphone_detector.py lines
208-242). -/
def shape_based_detection (cfg : DetectorConfig) (frame : FrameFeatures) : DetectResult :=
  if frame.shape_err then noDetection
  else shape_scan cfg frame.shape_contours

/-- The `detections` list built by `iPhoneDetector.detect_iphone`
(iphone_detector.py lines 117-123): each method result is appended when
it reports a detection with confidence strictly above
`config['detection_confidence']`. -/
def keptDetections (cfg : DetectorConfig) (frame : FrameFeatures) : List (ℚ × BBox) :=
  let r1 := template_matching_detection cfg frame
  let r2 := color_based_detection cfg frame
  let r3 := shape_based_detection cfg frame
  (if r1.1 && decide (cfg.detection_confidence < r1.2.1) then [(r1.2.1, r1.2.2)] else []) ++
  (if r2.1 && decide (cfg.detection_confidence < r2.2.1) then [(r2.2.1, r2.2.2)] else []) ++
  (if r3.1 && decide (cfg.detection_confidence < r3.2.1) then [(r3.2.1, r3.2.2)] else [])

/-- Python `max(detections, key=lambda x: x[0])` on a non-empty list
`x :: xs`: a left fold that keeps the current element on ties and takes a
later element only when its key is strictly greater. -/
def pyMaxFst (x : ℚ × BBox) (xs : List (ℚ × BBox)) : ℚ × BBox :=
  xs.foldl (fun acc y => if acc.1 < y.1 then y else acc) x

/-- `iPhoneDetector.detect_iphone` (iphone_detector.py lines 102-130). -/
def detect_iphone (cfg : DetectorConfig) (frame : FrameFeatures) : DetectResult :=
  match keptDetections cfg frame with
  | [] => noDetection
  | d :: ds =>
    let best := pyMaxFst d ds
    (true, best.1, best.2)

/-- Python truthiness of an optional string: `None` and `''` are falsy. -/
def pyTruthyStr : Option PyStr → Bool
  | none => false
  | some s => !s.isEmpty

/-- Python `a or b` on optional strings: `a` when truthy, else `b`. -/
def pyOrStr (a b : Option PyStr) : Option PyStr :=
  if pyTruthyStr a then a else b

/-- `iPhoneDetector.send_notification` (iphone_detector.py lines 253-265),
parameterised by the Bool the messenger's
`send_notification_with_cooldown` call would return.  Result: the
returned Bool, paired with whether the messenger was invoked at all. -/
def send_notification (cfg : DetectorConfig) (cooldownSendResult : Bool) : Bool × Bool :=
  let recipient := pyOrStr cfg.recipient_phone_number cfg.recipient_email
  if pyTruthyStr recipient = false then (false, false)
  else (cooldownSendResult, true)

/-- One recipient dictionary written by `ConfigGUI.save_config`
(config_gui.py lines 79-83). -/
structure Recipient where
  name : PyStr
  phone : PyStr
  message : PyStr
deriving DecidableEq

/-- The configuration dictionary as the GUI holds and dumps it.  The keys
the GUI itself manages are plain fields; `recipient_phone_number` and
`recipient_email` are keys the GUI never writes but carries through
unchanged from a previously loaded file (`Option`, `none` meaning the key
is absent from the JSON object). -/
structure GuiConfig where
  camera_index : ℤ
  detection_confidence : ℚ
  notification_cooldown : ℤ
  recipients : List Recipient
  detection_area : DetectionArea
  recipient_phone_number : Option PyStr
  recipient_email : Option PyStr
deriving DecidableEq

/-- The form widgets `ConfigGUI.create_widgets` builds (config_gui.py
lines 113-223) as `save_config` reads them: the camera-index combobox and
cooldown entry (after `int(...)`), the confidence scale (after
`float(...)`), and the display strings held by the recipients listbox.
The form has no widget for the detection region. -/
structure Widgets where
  camera_index_var : ℤ
  confidence_var : ℚ
  cooldown_var : ℤ
  recipients_listbox : List PyStr

/-- Leftmost occurrence of `sep` in a string: `some (pre, post)` splits
the string as `pre ++ sep ++ post` at the first occurrence. -/
def findSplit (sep : PyStr) : PyStr → Option (PyStr × PyStr)
  | [] => none
  | c :: rest =>
    if sep.isPrefixOf (c :: rest) then some ([], (c :: rest).drop sep.length)
    else
      match findSplit sep rest with
      | some (pre, post) => some (c :: pre, post)
      | none => none

/-- Python `s.split(sep, maxsplit)` for a non-empty separator: split on
the leftmost occurrences, at most `maxsplit` times. -/
def pySplit (sep : PyStr) : ℕ → PyStr → List PyStr
  | 0, s => [s]
  | n + 1, s =>
    match findSplit sep s with
    | none => [s]
    | some (pre, post) => pre :: pySplit sep n post

/-- The separator `" - "` of the listbox display format. -/
def sepDash : PyStr := [' ', '-', ' ']

/-- The loop body of `ConfigGUI.save_config` over listbox items
(config_gui.py lines 74-83): `item.split(" - ", 2)` and keep the item
only when it yields exactly three parts. -/
def parse_recipient_item (item : PyStr) : Option Recipient :=
  match pySplit sepDash 2 item with
  | [a, b, c] => some ⟨a, b, c⟩
  | _ => none

/-- `ConfigGUI.save_config` (config_gui.py lines 64-96): the dictionary
written to `config.json`, as a function of the widget values and the
dictionary the GUI currently holds.  It overwrites `camera_index`,
`detection_confidence`, `notification_cooldown` and `recipients` from the
widgets and dumps every other key unchanged. -/
def save_config (w : Widgets) (cfg : GuiConfig) : GuiConfig :=
  { cfg with
    camera_index := w.camera_index_var
    detection_confidence := w.confidence_var
    notification_cooldown := w.cooldown_var
    recipients := w.recipients_listbox.filterMap parse_recipient_item }

/-- The externally visible actions `ConfigGUI.start_detector` can take,
in order: show an error box, run `save_config` (writing the given
dictionary), spawn `subprocess.Popen([sys.executable,
"iphone_detector.py"])`, show the success info box. -/
inductive GuiAction where
  | show_error
  | save (cfg : GuiConfig)
  | launch (exe : PyStr) (script : PyStr)
  | show_info
deriving DecidableEq

/-- The script path passed to `subprocess.Popen` in
`ConfigGUI.start_detector` (config_gui.py line 302). -/
def iphone_detector_script : PyStr := "iphone_detector.py".toList

/-- `ConfigGUI.start_detector` (config_gui.py lines 287-311) as its
ordered list of externally visible actions, parameterised by
`sys.executable`: with an empty recipients listbox it shows an error and
does nothing else; otherwise it saves the configuration first and then
launches the detector subprocess. -/
def start_detector (exe : PyStr) (w : Widgets) (cfg : GuiConfig) : List GuiAction :=
  if w.recipients_listbox.length = 0 then
    [GuiAction.show_error]
  else
    [GuiAction.save (save_config w cfg),
     GuiAction.launch exe iphone_detector_script,
     GuiAction.show_info]

/-- `iPhoneDetector.load_config` (iphone_detector.py lines 46-81) applied
to a dictionary saved by the GUI: existing keys are kept and each missing
key receives the detector's default, so an absent `recipient_phone_number`
or `recipient_email` becomes the empty string. -/
def detector_load_from_dict (g : GuiConfig) : DetectorConfig :=
  { detection_confidence := g.detection_confidence
    detection_area := g.detection_area
    recipient_phone_number := some (g.recipient_phone_number.getD [])
    recipient_email := some (g.recipient_email.getD []) }

/-- C2: `send_notification_with_cooldown` is a single
subtraction-and-compare gate: it returns False without attempting any
send exactly when `current_time - last_message_time < message_cooldown`;
otherwise it attempts the send, propagates the send result, and updates
`last_message_time` to the current time only when the send returns True,
leaving the cooldown state unchanged on a failed send. -/
theorem C2_cooldown_single_gate (st : MessengerState) (t : ℚ) (r : Bool) :
    (t - st.last_message_time < st.message_cooldown →
       send_notification_with_cooldown st t r = (false, st, false)) ∧
    (st.message_cooldown ≤ t - st.last_message_time →
       send_notification_with_cooldown st t r =
         (r, if r then { st with last_message_time := t } else st, true)) := by
  constructor
  · intro h
    simp [send_notification_with_cooldown, h]
  · intro h
    simp [send_notification_with_cooldown, not_lt.mpr h]

/-- Witness for C2 at a concrete state: last message at time 0, cooldown
60, current time 100, successful send. -/
theorem C2_cooldown_single_gate_witness :
    ((⟨0, 60⟩ : MessengerState).message_cooldown ≤ 100 - (⟨0, 60⟩ : MessengerState).last_message_time) ∧
    send_notification_with_cooldown ⟨0, 60⟩ 100 true = (true, ⟨100, 60⟩, true) := by
  refine ⟨by norm_num, ?_⟩
  have h := (C2_cooldown_single_gate ⟨0, 60⟩ 100 true).2 (by norm_num)
  simpa using h

/-- C5 counterexample: when the primary AppleScript invocation exits with
a nonzero code and the alternative invocation succeeds, `send_message`
does attempt the alternative method and returns True, so it is not the
case that it only logs and returns False with no alternative attempt. -/
theorem C5_no_alternative_counterexample :
    ¬ (send_message ScriptOutcome.fail ScriptOutcome.ok = (false, false)) := by
  decide

/-- C5 amended: when the primary invocation exits nonzero, `send_message`
attempts `_send_message_alternative` and returns its result; on a
timeout or another exception it returns False without attempting the
alternative; and the alternative method itself has no further fallback:
it returns False on every non-ok outcome. -/
theorem C5_alternative_fallback (p a : ScriptOutcome) :
    send_message ScriptOutcome.fail a = (send_message_alternative a, true) ∧
    (p = ScriptOutcome.timeout ∨ p = ScriptOutcome.exc →
       send_message p a = (false, false)) ∧
    (a ≠ ScriptOutcome.ok → send_message_alternative a = false) := by
  refine ⟨rfl, ?_, ?_⟩
  · rintro (rfl | rfl) <;> rfl
  · intro h
    cases a
    · exact absurd rfl h
    · rfl
    · rfl
    · rfl

/-- Witness for C5 amended at concrete outcomes: a timed-out primary call
and a failing alternative call. -/
theorem C5_alternative_fallback_witness :
    (ScriptOutcome.timeout = ScriptOutcome.timeout ∨
       ScriptOutcome.timeout = ScriptOutcome.exc) ∧
    send_message ScriptOutcome.timeout ScriptOutcome.fail = (false, false) ∧
    ScriptOutcome.fail ≠ ScriptOutcome.ok ∧
    send_message_alternative ScriptOutcome.fail = false := by
  refine ⟨Or.inl rfl, ?_, by decide, ?_⟩
  · exact (C5_alternative_fallback ScriptOutcome.timeout ScriptOutcome.fail).2.1 (Or.inl rfl)
  · exact (C5_alternative_fallback ScriptOutcome.timeout ScriptOutcome.fail).2.2 (by decide)

/-- C9: membership in the detection area ignores the candidate box's
size; with the area disabled every box is accepted, and with it enabled a
box is accepted iff its top-left corner lies in the closed rectangle
spanned by the area's origin and origin plus extent. -/
theorem C9_detection_area_ignores_size (cfg : DetectorConfig) (x y w h w2 h2 : ℤ) :
    is_in_detection_area cfg x y w h = is_in_detection_area cfg x y w2 h2 ∧
    (cfg.detection_area.enabled = false → is_in_detection_area cfg x y w h = true) ∧
    (cfg.detection_area.enabled = true →
      (is_in_detection_area cfg x y w h = true ↔
        (cfg.detection_area.x ≤ x ∧ x ≤ cfg.detection_area.x + cfg.detection_area.width ∧
         cfg.detection_area.y ≤ y ∧ y ≤ cfg.detection_area.y + cfg.detection_area.height))) := by
  refine ⟨rfl, ?_, ?_⟩
  · intro he
    simp [is_in_detection_area, he]
  · intro he
    simp [is_in_detection_area, he]

/-- Witness for C9 at a concrete enabled area and box. -/
theorem C9_detection_area_ignores_size_witness :
    (⟨0, ⟨true, 0, 0, 100, 100⟩, none, none⟩ : DetectorConfig).detection_area.enabled = true ∧
    (is_in_detection_area ⟨0, ⟨true, 0, 0, 100, 100⟩, none, none⟩ 5 7 1 2 = true ↔
      ((0 : ℤ) ≤ 5 ∧ (5 : ℤ) ≤ 0 + 100 ∧ (0 : ℤ) ≤ 7 ∧ (7 : ℤ) ≤ 0 + 100)) := by
  exact ⟨rfl, (C9_detection_area_ignores_size ⟨0, ⟨true, 0, 0, 100, 100⟩, none, none⟩ 5 7 1 2 9 9).2.2 rfl⟩

/-- C4 counterexample: with identical form widgets, two loaded
configurations differing only in their detection region are saved with
different detection regions, and the saved region is the loaded one — so
the detection region written to the file is not a function of the form's
widgets (the form has no detection-region widget at all). -/
theorem C4_region_not_from_widgets_counterexample :
    (save_config ⟨0, 1/2, 60, []⟩
        ⟨0, 1/2, 60, [], ⟨true, 1, 2, 3, 4⟩, none, none⟩).detection_area ≠
      (save_config ⟨0, 1/2, 60, []⟩
        ⟨0, 1/2, 60, [], ⟨false, 0, 0, 640, 480⟩, none, none⟩).detection_area ∧
    (save_config ⟨0, 1/2, 60, []⟩
        ⟨0, 1/2, 60, [], ⟨true, 1, 2, 3, 4⟩, none, none⟩).detection_area =
      ⟨true, 1, 2, 3, 4⟩ := by
  exact ⟨by decide, rfl⟩

/-- C4 amended: `save_config` writes the camera index, confidence
threshold, cooldown and recipient list from the form's widgets, but the
detection region it writes is carried over unchanged from the previously
loaded configuration, since the form has no detection-region widgets. -/
theorem C4_save_config_groups (w : Widgets) (cfg : GuiConfig) :
    (save_config w cfg).camera_index = w.camera_index_var ∧
    (save_config w cfg).detection_confidence = w.confidence_var ∧
    (save_config w cfg).notification_cooldown = w.cooldown_var ∧
    (save_config w cfg).recipients = w.recipients_listbox.filterMap parse_recipient_item ∧
    (save_config w cfg).detection_area = cfg.detection_area :=
  ⟨rfl, rfl, rfl, rfl, rfl⟩

/-- C8: with an empty recipient list `start_detector` shows an error and
takes no further action (in particular it launches no subprocess);
otherwise it first saves the configuration and only then launches
`iphone_detector.py` with the current Python interpreter. -/
theorem C8_start_detector_saves_then_launches (exe : PyStr) (w : Widgets) (cfg : GuiConfig) :
    (w.recipients_listbox = [] →
       start_detector exe w cfg = [GuiAction.show_error]) ∧
    (w.recipients_listbox ≠ [] →
       start_detector exe w cfg =
         [GuiAction.save (save_config w cfg),
          GuiAction.launch exe iphone_detector_script,
          GuiAction.show_info]) := by
  constructor
  · intro h
    simp [start_detector, h]
  · intro h
    simp [start_detector, List.length_eq_zero, h]

/-- Witness for C8 with one listbox entry. -/
theorem C8_start_detector_saves_then_launches_witness :
    (([['a']] : List PyStr) ≠ []) ∧
    start_detector ['p'] ⟨0, 1/2, 60, [['a']]⟩
        ⟨0, 1/2, 60, [], ⟨false, 0, 0, 640, 480⟩, none, none⟩ =
      [GuiAction.save (save_config ⟨0, 1/2, 60, [['a']]⟩
          ⟨0, 1/2, 60, [], ⟨false, 0, 0, 640, 480⟩, none, none⟩),
       GuiAction.launch ['p'] iphone_detector_script,
       GuiAction.show_info] := by
  refine ⟨by simp, ?_⟩
  exact (C8_start_detector_saves_then_launches ['p'] ⟨0, 1/2, 60, [['a']]⟩
    ⟨0, 1/2, 60, [], ⟨false, 0, 0, 640, 480⟩, none, none⟩).2 (by simp)

/-- C3: `send_notification` attempts no send and returns False whenever
the configuration has neither a truthy `recipient_phone_number` nor a
truthy `recipient_email`; and a configuration saved by the GUI from a
loaded dictionary lacking both keys, once loaded by the detector's
config merge, never yields a notification attempt. -/
theorem C3_no_recipient_never_sends (cfg : DetectorConfig) (r : Bool) (w : Widgets) (g : GuiConfig) :
    (pyTruthyStr cfg.recipient_phone_number = false →
     pyTruthyStr cfg.recipient_email = false →
       send_notification cfg r = (false, false)) ∧
    (g.recipient_phone_number = none → g.recipient_email = none →
       send_notification (detector_load_from_dict (save_config w g)) r = (false, false)) := by
  constructor
  · intro h1 h2
    simp [send_notification, pyOrStr, h1, h2]
  · intro h1 h2
    simp [send_notification, detector_load_from_dict, save_config, pyOrStr, pyTruthyStr, h1, h2]

/-- Witness for C3 at a concrete empty-recipient configuration and a
concrete GUI dictionary lacking both recipient keys. -/
theorem C3_no_recipient_never_sends_witness :
    pyTruthyStr (some ([] : List Char)) = false ∧
    send_notification ⟨0, ⟨false, 0, 0, 640, 480⟩, some [], none⟩ true = (false, false) ∧
    send_notification (detector_load_from_dict (save_config ⟨0, 1/2, 60, []⟩
        ⟨0, 1/2, 60, [], ⟨false, 0, 0, 640, 480⟩, none, none⟩)) true = (false, false) := by
  refine ⟨rfl, ?_, ?_⟩
  · exact (C3_no_recipient_never_sends ⟨0, ⟨false, 0, 0, 640, 480⟩, some [], none⟩ true
      ⟨0, 1/2, 60, []⟩ ⟨0, 1/2, 60, [], ⟨false, 0, 0, 640, 480⟩, none, none⟩).1 rfl rfl
  · exact (C3_no_recipient_never_sends ⟨0, ⟨false, 0, 0, 640, 480⟩, some [], none⟩ true
      ⟨0, 1/2, 60, []⟩ ⟨0, 1/2, 60, [], ⟨false, 0, 0, 640, 480⟩, none, none⟩).2 rfl rfl

/-- C6: case analysis of `_format_recipient`.  A string whose
separator-stripped form is not a non-empty digit string is returned
unchanged; otherwise only digits and `'+'` are kept, with `"+1"`
prefixed at length 10, `"+"` prefixed at length 11 with leading `'1'`,
and the kept string returned unchanged in all other length cases. -/
theorem C6_format_recipient_cases (s : PyStr) :
    (pyIsdigit (stripSeparators s) = false → format_recipient s = s) ∧
    (pyIsdigit (stripSeparators s) = true →
      ((digitsAndPlus s).length = 10 →
         format_recipient s = '+' :: '1' :: digitsAndPlus s) ∧
      ((digitsAndPlus s).length = 11 ∧ (digitsAndPlus s).head? = some '1' →
         format_recipient s = '+' :: digitsAndPlus s) ∧
      ((digitsAndPlus s).length ≠ 10 →
        ¬ ((digitsAndPlus s).length = 11 ∧ (digitsAndPlus s).head? = some '1') →
         format_recipient s = digitsAndPlus s)) := by
  constructor
  · intro h
    simp [format_recipient, h]
  · intro h
    refine ⟨?_, ?_, ?_⟩
    · intro hl
      simp [format_recipient, h, hl]
    · rintro ⟨h11, hhd⟩
      simp [format_recipient, h, h11, hhd]
    · intro h10 h11
      simp [format_recipient, h, h10, h11]

/-- Witness for C6 on the ten-digit number from the repository's help
text. -/
theorem C6_format_recipient_cases_witness :
    pyIsdigit (stripSeparators ['5', '1', '2', '9', '4', '2', '7', '2', '9', '9']) = true ∧
    (digitsAndPlus ['5', '1', '2', '9', '4', '2', '7', '2', '9', '9']).length = 10 ∧
    format_recipient ['5', '1', '2', '9', '4', '2', '7', '2', '9', '9'] =
      '+' :: '1' :: digitsAndPlus ['5', '1', '2', '9', '4', '2', '7', '2', '9', '9'] := by
  refine ⟨by decide, by decide, ?_⟩
  exact ((C6_format_recipient_cases ['5', '1', '2', '9', '4', '2', '7', '2', '9', '9']).2
    (by decide)).1 (by decide)

theorem filter_idem (p : Char → Bool) (s : List Char) :
    (s.filter p).filter p = s.filter p := by
  induction s with
  | nil => rfl
  | cons c cs ih =>
    by_cases h : p c
    · simp [List.filter_cons, h, ih]
    · simp [List.filter_cons, h, ih]

theorem digitsAndPlus_idem (s : PyStr) :
    digitsAndPlus (digitsAndPlus s) = digitsAndPlus s :=
  filter_idem _ s

theorem sep_not_digit {c : Char} (h : isSeparator c = true) : c.isDigit = false := by
  simp only [isSeparator, Bool.or_eq_true, beq_iff_eq] at h
  rcases h with ((((rfl | rfl) | rfl) | rfl) | rfl) <;> decide

/-- Stripping separators from the digits-and-plus filtrate of a string
whose separator-stripped form is all digits gives the separator-stripped
form back. -/
theorem strip_digitsAndPlus (s : PyStr)
    (H : (stripSeparators s).all Char.isDigit = true) :
    stripSeparators (digitsAndPlus s) = stripSeparators s := by
  have hmem : ∀ a ∈ s, a.isDigit = true ∨ isSeparator a = true := by
    intro a ha
    by_cases hs : isSeparator a = true
    · exact Or.inr hs
    · left
      have hmem' : a ∈ stripSeparators s := by
        simp [stripSeparators, List.mem_filter, ha, hs]
      simp [pyIsdigit, List.all_eq_true] at H
      exact H a hmem'
  have hcomb : stripSeparators (digitsAndPlus s) =
      s.filter (fun a => !isSeparator a && (a.isDigit || a == '+')) := by
    simp [stripSeparators, digitsAndPlus]
  rw [hcomb, stripSeparators]
  apply List.filter_congr
  intro a ha
  rcases hmem a ha with hd | hs
  · have hns : isSeparator a = false := by
      rcases Bool.eq_false_or_eq_true (isSeparator a) with h | h
      · rw [sep_not_digit h] at hd
        exact absurd hd (by decide)
      · exact h
    simp [hd, hns]
  · simp [hs]

theorem pyIsdigit_digitsAndPlus (s : PyStr)
    (H : pyIsdigit (stripSeparators s) = true) :
    pyIsdigit (stripSeparators (digitsAndPlus s)) = true := by
  have Hall : (stripSeparators s).all Char.isDigit = true := by
    have h := H
    simp [pyIsdigit] at h
    exact List.all_eq_true.mpr (by intro x hx; simpa using h.2 x hx)
  rw [strip_digitsAndPlus s Hall]
  exact H

theorem pyIsdigit_all {l : PyStr} (h : pyIsdigit l = true) :
    l.all Char.isDigit = true := by
  simp [pyIsdigit] at h
  exact List.all_eq_true.mpr (by intro x hx; simpa using h.2 x hx)

theorem strip_cons_plus (l : PyStr) :
    stripSeparators ('+' :: l) = stripSeparators l := by
  simp [stripSeparators, List.filter_cons, show isSeparator '+' = true by decide]

theorem strip_cons_one (l : PyStr) :
    stripSeparators ('1' :: l) = '1' :: stripSeparators l := by
  simp [stripSeparators, List.filter_cons, show isSeparator '1' = false by decide]

theorem dap_cons_plus (l : PyStr) :
    digitsAndPlus ('+' :: l) = '+' :: digitsAndPlus l := by
  simp [digitsAndPlus, List.filter_cons, show ('+'.isDigit || ('+' == '+')) = true by decide]

theorem dap_cons_one (l : PyStr) :
    digitsAndPlus ('1' :: l) = '1' :: digitsAndPlus l := by
  simp [digitsAndPlus, List.filter_cons, show ('1'.isDigit || ('1' == '+')) = true by decide]

/-- C10: the phone-number formatting heuristic is idempotent: formatting
an already formatted recipient changes nothing. -/
theorem C10_format_recipient_idem (s : PyStr) :
    format_recipient (format_recipient s) = format_recipient s := by
  by_cases h : pyIsdigit (stripSeparators s) = true
  · have hisd : pyIsdigit (stripSeparators (digitsAndPlus s)) = true :=
      pyIsdigit_digitsAndPlus s h
    have hid : digitsAndPlus (digitsAndPlus s) = digitsAndPlus s := digitsAndPlus_idem s
    by_cases h10 : (digitsAndPlus s).length = 10
    · have e1 : format_recipient s = '+' :: '1' :: digitsAndPlus s := by
        simp [format_recipient, h, h10]
      rw [e1]
      have hstrip : stripSeparators ('+' :: '1' :: digitsAndPlus s) =
          '1' :: stripSeparators (digitsAndPlus s) := by
        rw [strip_cons_plus, strip_cons_one]
      have hisd2 : pyIsdigit (stripSeparators ('+' :: '1' :: digitsAndPlus s)) = true := by
        rw [hstrip]
        simp [pyIsdigit, List.all_cons, pyIsdigit_all hisd]
      have hdap : digitsAndPlus ('+' :: '1' :: digitsAndPlus s) =
          '+' :: '1' :: digitsAndPlus s := by
        rw [dap_cons_plus, dap_cons_one, hid]
      have hlen : ('+' :: '1' :: digitsAndPlus s).length = 12 := by
        simp [h10]
      simp [format_recipient, hisd2, hdap, hlen]
    · by_cases h11 : (digitsAndPlus s).length = 11 ∧ (digitsAndPlus s).head? = some '1'
      · have e1 : format_recipient s = '+' :: digitsAndPlus s := by
          simp [format_recipient, h, h10, h11.1, h11.2]
        rw [e1]
        have hisd2 : pyIsdigit (stripSeparators ('+' :: digitsAndPlus s)) = true := by
          rw [strip_cons_plus]
          exact hisd
        have hdap : digitsAndPlus ('+' :: digitsAndPlus s) = '+' :: digitsAndPlus s := by
          rw [dap_cons_plus, hid]
        have hlen : ('+' :: digitsAndPlus s).length = 12 := by
          simp [h11.1]
        simp [format_recipient, hisd2, hdap, hlen]
      · have e1 : format_recipient s = digitsAndPlus s := by
          simp [format_recipient, h, h10, h11]
        rw [e1]
        simp [format_recipient, hisd, hid, h10, h11]
  · have e1 : format_recipient s = s := by
      simp [format_recipient, h]
    rw [e1]
    exact e1

theorem pyMaxFst_cons (x y : ℚ × BBox) (ys : List (ℚ × BBox)) :
    pyMaxFst x (y :: ys) = pyMaxFst (if x.1 < y.1 then y else x) ys :=
  rfl

theorem pyMaxFst_mem (x : ℚ × BBox) (xs : List (ℚ × BBox)) :
    pyMaxFst x xs ∈ x :: xs := by
  induction xs generalizing x with
  | nil => simp [pyMaxFst]
  | cons y ys ih =>
    rw [pyMaxFst_cons]
    rcases List.mem_cons.mp (ih (if x.1 < y.1 then y else x)) with h1 | h2
    · rw [h1]
      by_cases hxy : x.1 < y.1
      · simp [hxy]
      · simp [hxy]
    · exact List.mem_cons_of_mem _ (List.mem_cons_of_mem _ h2)

theorem pyMaxFst_ge (x : ℚ × BBox) (xs : List (ℚ × BBox)) :
    ∀ q ∈ x :: xs, q.1 ≤ (pyMaxFst x xs).1 := by
  induction xs generalizing x with
  | nil =>
    intro q hq
    rcases List.mem_singleton.mp hq with rfl
    simp [pyMaxFst]
  | cons y ys ih =>
    intro q hq
    rw [pyMaxFst_cons]
    have hx : x.1 ≤ (if x.1 < y.1 then y else x).1 := by
      by_cases hxy : x.1 < y.1
      · simp [hxy]
        exact le_of_lt hxy
      · simp [hxy]
    have hy : y.1 ≤ (if x.1 < y.1 then y else x).1 := by
      by_cases hxy : x.1 < y.1
      · simp [hxy]
      · simp [hxy]
        exact not_lt.mp hxy
    have hacc : (if x.1 < y.1 then y else x).1 ≤
        (pyMaxFst (if x.1 < y.1 then y else x) ys).1 :=
      ih (if x.1 < y.1 then y else x) _ (List.mem_cons_self _ _)
    rcases List.mem_cons.mp hq with rfl | hq'
    · exact le_trans hx hacc
    rcases List.mem_cons.mp hq' with rfl | hq''
    · exact le_trans hy hacc
    · exact ih (if x.1 < y.1 then y else x) q (List.mem_cons_of_mem _ hq'')

theorem mem_if_singleton {c : Bool} {a p : ℚ × BBox} :
    p ∈ (if c then [a] else []) ↔ c = true ∧ p = a := by
  cases c <;> simp

/-- C1: `detect_iphone` runs the three heuristic detectors, keeps exactly
the results reporting a detection with confidence strictly above the
configured `detection_confidence`, and returns `(True, c, b)` for a kept
detection `(c, b)` of maximal confidence; with nothing kept it returns
`(False, 0.0, (0, 0, 0, 0))`. -/
theorem C1_detect_iphone_max_kept (cfg : DetectorConfig) (frame : FrameFeatures) :
    (keptDetections cfg frame = [] → detect_iphone cfg frame = (false, 0, (0, 0, 0, 0))) ∧
    (keptDetections cfg frame ≠ [] →
      ∃ p ∈ keptDetections cfg frame,
        detect_iphone cfg frame = (true, p.1, p.2) ∧
        ∀ q ∈ keptDetections cfg frame, q.1 ≤ p.1) ∧
    (∀ p, p ∈ keptDetections cfg frame ↔
      ∃ r ∈ [template_matching_detection cfg frame, color_based_detection cfg frame,
             shape_based_detection cfg frame],
        r.1 = true ∧ cfg.detection_confidence < r.2.1 ∧ p = (r.2.1, r.2.2)) := by
  refine ⟨?_, ?_, ?_⟩
  · intro h
    simp [detect_iphone, h, noDetection]
  · intro h
    rcases hK : keptDetections cfg frame with _ | ⟨d, ds⟩
    · exact absurd hK h
    refine ⟨pyMaxFst d ds, ?_, ?_, ?_⟩
    · exact pyMaxFst_mem d ds
    · simp [detect_iphone, hK]
    · exact pyMaxFst_ge d ds
  · intro p
    constructor
    · intro hp
      rcases List.mem_append.mp hp with hp12 | hp3
      · rcases List.mem_append.mp hp12 with hp1 | hp2
        · rcases mem_if_singleton.mp hp1 with ⟨hc, rfl⟩
          rcases Bool.and_eq_true_iff.mp hc with ⟨h1, h2⟩
          exact ⟨template_matching_detection cfg frame, by simp, h1, of_decide_eq_true h2, rfl⟩
        · rcases mem_if_singleton.mp hp2 with ⟨hc, rfl⟩
          rcases Bool.and_eq_true_iff.mp hc with ⟨h1, h2⟩
          exact ⟨color_based_detection cfg frame, by simp, h1, of_decide_eq_true h2, rfl⟩
      · rcases mem_if_singleton.mp hp3 with ⟨hc, rfl⟩
        rcases Bool.and_eq_true_iff.mp hc with ⟨h1, h2⟩
        exact ⟨shape_based_detection cfg frame, by simp, h1, of_decide_eq_true h2, rfl⟩
    · rintro ⟨r, hr, h1, h2, rfl⟩
      simp only [List.mem_cons, List.not_mem_nil, or_false] at hr
      rcases hr with rfl | rfl | rfl
      · apply List.mem_append.mpr
        apply Or.inl
        apply List.mem_append.mpr
        apply Or.inl
        exact mem_if_singleton.mpr ⟨by rw [h1]; simpa using h2, rfl⟩
      · apply List.mem_append.mpr
        apply Or.inl
        apply List.mem_append.mpr
        apply Or.inr
        exact mem_if_singleton.mpr ⟨by rw [h1]; simpa using h2, rfl⟩
      · apply List.mem_append.mpr
        apply Or.inr
        exact mem_if_singleton.mpr ⟨by rw [h1]; simpa using h2, rfl⟩

/-- Witness for C1: threshold 0.3, detection area disabled, and a frame
whose template pipeline yields one rectangular contour of 60 by 120
pixels, so only the template result is kept and wins. -/
theorem C1_detect_iphone_max_kept_witness :
    keptDetections ⟨3/10, ⟨false, 0, 0, 640, 480⟩, none, none⟩
        ⟨false, [⟨4, 0, 0, 60, 120⟩], false, [], false, []⟩ ≠ [] ∧
    detect_iphone ⟨3/10, ⟨false, 0, 0, 640, 480⟩, none, none⟩
        ⟨false, [⟨4, 0, 0, 60, 120⟩], false, [], false, []⟩ = (true, 3/5, (0, 0, 60, 120)) := by
  have hK : keptDetections ⟨3/10, ⟨false, 0, 0, 640, 480⟩, none, none⟩
      ⟨false, [⟨4, 0, 0, 60, 120⟩], false, [], false, []⟩ = [(3/5, (0, 0, 60, 120))] := by
    norm_num [keptDetections, template_matching_detection, color_based_detection,
      shape_based_detection, template_scan, color_scan, shape_scan, aspect_ratio_ok,
      is_in_detection_area, noDetection]
  refine ⟨by rw [hK]; simp, ?_⟩
  obtain ⟨p, hp, heq, _⟩ :=
    (C1_detect_iphone_max_kept ⟨3/10, ⟨false, 0, 0, 640, 480⟩, none, none⟩
      ⟨false, [⟨4, 0, 0, 60, 120⟩], false, [], false, []⟩).2.1 (by rw [hK]; simp)
  rw [hK] at hp
  simp at hp
  rw [hp] at heq
  simpa using heq

theorem template_scan_cases (cfg : DetectorConfig) (l : List TemplateContour) :
    template_scan cfg l = noDetection ∨
    ∃ c ∈ l, template_scan cfg l = (true, 3/5, (c.x, c.y, c.w, c.h)) ∧
      c.approx_len = 4 ∧ aspect_ratio_ok c.w c.h = true ∧ 50 < c.w ∧ 80 < c.h ∧
      is_in_detection_area cfg c.x c.y c.w c.h = true := by
  induction l with
  | nil => exact Or.inl rfl
  | cons c rest ih =>
    by_cases h4 : c.approx_len = 4
    · by_cases hh : c.h = 0
      · exact Or.inl (by simp [template_scan, h4, hh])
      · by_cases hg : (aspect_ratio_ok c.w c.h && decide (50 < c.w) && decide (80 < c.h)) = true
        · by_cases hin : is_in_detection_area cfg c.x c.y c.w c.h = true
          · rcases Bool.and_eq_true_iff.mp hg with ⟨hg1, hg3⟩
            rcases Bool.and_eq_true_iff.mp hg1 with ⟨ha, hg2⟩
            refine Or.inr ⟨c, List.mem_cons_self _ _, ?_, h4, ha,
              of_decide_eq_true hg2, of_decide_eq_true hg3, hin⟩
            simp [template_scan, h4, hh, hg, hin]
          · have e : template_scan cfg (c :: rest) = template_scan cfg rest := by
              simp [template_scan, h4, hh, hg, hin]
            rw [e]
            rcases ih with h | ⟨c', hm, hrest⟩
            · exact Or.inl h
            · exact Or.inr ⟨c', List.mem_cons_of_mem _ hm, hrest⟩
        · have e : template_scan cfg (c :: rest) = template_scan cfg rest := by
            simp [template_scan, h4, hh, hg]
          rw [e]
          rcases ih with h | ⟨c', hm, hrest⟩
          · exact Or.inl h
          · exact Or.inr ⟨c', List.mem_cons_of_mem _ hm, hrest⟩
    · have e : template_scan cfg (c :: rest) = template_scan cfg rest := by
        simp [template_scan, h4]
      rw [e]
      rcases ih with h | ⟨c', hm, hrest⟩
      · exact Or.inl h
      · exact Or.inr ⟨c', List.mem_cons_of_mem _ hm, hrest⟩

theorem color_scan_cases (cfg : DetectorConfig) (l : List ColorContour) :
    color_scan cfg l = noDetection ∨
    ∃ c ∈ l, color_scan cfg l = (true, 1/2, (c.x, c.y, c.w, c.h)) ∧
      1000 < c.area ∧ aspect_ratio_ok c.w c.h = true ∧
      is_in_detection_area cfg c.x c.y c.w c.h = true := by
  induction l with
  | nil => exact Or.inl rfl
  | cons c rest ih =>
    by_cases har : (1000 : ℚ) < c.area
    · by_cases hh : c.h = 0
      · exact Or.inl (by simp [color_scan, har, hh])
      · by_cases hg : aspect_ratio_ok c.w c.h = true
        · by_cases hin : is_in_detection_area cfg c.x c.y c.w c.h = true
          · refine Or.inr ⟨c, List.mem_cons_self _ _, ?_, har, hg, hin⟩
            simp [color_scan, har, hh, hg, hin]
          · have e : color_scan cfg (c :: rest) = color_scan cfg rest := by
              simp [color_scan, har, hh, hg, hin]
            rw [e]
            rcases ih with h | ⟨c', hm, hrest⟩
            · exact Or.inl h
            · exact Or.inr ⟨c', List.mem_cons_of_mem _ hm, hrest⟩
        · have e : color_scan cfg (c :: rest) = color_scan cfg rest := by
            simp [color_scan, har, hh, hg]
          rw [e]
          rcases ih with h | ⟨c', hm, hrest⟩
          · exact Or.inl h
          · exact Or.inr ⟨c', List.mem_cons_of_mem _ hm, hrest⟩
    · have e : color_scan cfg (c :: rest) = color_scan cfg rest := by
        simp [color_scan, har]
      rw [e]
      rcases ih with h | ⟨c', hm, hrest⟩
      · exact Or.inl h
      · exact Or.inr ⟨c', List.mem_cons_of_mem _ hm, hrest⟩

theorem shape_scan_cases (cfg : DetectorConfig) (l : List ShapeContour) :
    shape_scan cfg l = noDetection ∨
    ∃ c ∈ l, shape_scan cfg l = (true, 2/5, (c.x, c.y, c.w, c.h)) ∧
      2000 < c.area ∧ aspect_ratio_ok c.w c.h = true ∧ 60 < c.w ∧ 100 < c.h ∧
      (7 : ℚ)/10 < (if 0 < c.hull_area then c.area / c.hull_area else 0) ∧
      is_in_detection_area cfg c.x c.y c.w c.h = true := by
  induction l with
  | nil => exact Or.inl rfl
  | cons c rest ih =>
    by_cases har : (2000 : ℚ) < c.area
    · by_cases hh : c.h = 0
      · exact Or.inl (by simp [shape_scan, har, hh])
      · by_cases hg : (aspect_ratio_ok c.w c.h && decide (60 < c.w) && decide (100 < c.h)) = true
        · by_cases hs : (7 : ℚ)/10 < (if 0 < c.hull_area then c.area / c.hull_area else 0)
          · by_cases hin : is_in_detection_area cfg c.x c.y c.w c.h = true
            · rcases Bool.and_eq_true_iff.mp hg with ⟨hg1, hg3⟩
              rcases Bool.and_eq_true_iff.mp hg1 with ⟨ha, hg2⟩
              refine Or.inr ⟨c, List.mem_cons_self _ _, ?_, har, ha,
                of_decide_eq_true hg2, of_decide_eq_true hg3, hs, hin⟩
              simp [shape_scan, har, hh, hg, hs, hin]
            · have e : shape_scan cfg (c :: rest) = shape_scan cfg rest := by
                simp [shape_scan, har, hh, hg, hs, hin]
              rw [e]
              rcases ih with h | ⟨c', hm, hrest⟩
              · exact Or.inl h
              · exact Or.inr ⟨c', List.mem_cons_of_mem _ hm, hrest⟩
          · have e : shape_scan cfg (c :: rest) = shape_scan cfg rest := by
              simp [shape_scan, har, hh, hg, hs]
            rw [e]
            rcases ih with h | ⟨c', hm, hrest⟩
            · exact Or.inl h
            · exact Or.inr ⟨c', List.mem_cons_of_mem _ hm, hrest⟩
        · have e : shape_scan cfg (c :: rest) = shape_scan cfg rest := by
            simp [shape_scan, har, hh, hg]
          rw [e]
          rcases ih with h | ⟨c', hm, hrest⟩
          · exact Or.inl h
          · exact Or.inr ⟨c', List.mem_cons_of_mem _ hm, hrest⟩
    · have e : shape_scan cfg (c :: rest) = shape_scan cfg rest := by
        simp [shape_scan, har]
      rw [e]
      rcases ih with h | ⟨c', hm, hrest⟩
      · exact Or.inl h
      · exact Or.inr ⟨c', List.mem_cons_of_mem _ hm, hrest⟩

/-- C7: each heuristic detector either returns the fixed triple
`(False, 0.0, (0, 0, 0, 0))` — covering the no-passing-contour and
exception cases — or returns True with its fixed hard-coded confidence
(0.6 for template matching, 0.5 for color, 0.4 for shape) and the
bounding box of a contour that passes all of its hard-coded gates. -/
theorem C7_constant_confidences (cfg : DetectorConfig) (frame : FrameFeatures) :
    (template_matching_detection cfg frame = (false, 0, (0, 0, 0, 0)) ∨
      ∃ c ∈ frame.template_contours,
        template_matching_detection cfg frame = (true, 3/5, (c.x, c.y, c.w, c.h)) ∧
        c.approx_len = 4 ∧ aspect_ratio_ok c.w c.h = true ∧ 50 < c.w ∧ 80 < c.h ∧
        is_in_detection_area cfg c.x c.y c.w c.h = true) ∧
    (color_based_detection cfg frame = (false, 0, (0, 0, 0, 0)) ∨
      ∃ c ∈ frame.color_contours,
        color_based_detection cfg frame = (true, 1/2, (c.x, c.y, c.w, c.h)) ∧
        1000 < c.area ∧ aspect_ratio_ok c.w c.h = true ∧
        is_in_detection_area cfg c.x c.y c.w c.h = true) ∧
    (shape_based_detection cfg frame = (false, 0, (0, 0, 0, 0)) ∨
      ∃ c ∈ frame.shape_contours,
        shape_based_detection cfg frame = (true, 2/5, (c.x, c.y, c.w, c.h)) ∧
        2000 < c.area ∧ aspect_ratio_ok c.w c.h = true ∧ 60 < c.w ∧ 100 < c.h ∧
        (7 : ℚ)/10 < (if 0 < c.hull_area then c.area / c.hull_area else 0) ∧
        is_in_detection_area cfg c.x c.y c.w c.h = true) := by
  refine ⟨?_, ?_, ?_⟩
  · by_cases herr : frame.template_err = true
    · exact Or.inl (by simp [template_matching_detection, herr, noDetection])
    · have e : template_matching_detection cfg frame =
          template_scan cfg frame.template_contours := by
        simp [template_matching_detection, herr]
      rw [e]
      exact template_scan_cases cfg frame.template_contours
  · by_cases herr : frame.color_err = true
    · exact Or.inl (by simp [color_based_detection, herr, noDetection])
    · have e : color_based_detection cfg frame =
          color_scan cfg frame.color_contours := by
        simp [color_based_detection, herr]
      rw [e]
      exact color_scan_cases cfg frame.color_contours
  · by_cases herr : frame.shape_err = true
    · exact Or.inl (by simp [shape_based_detection, herr, noDetection])
    · have e : shape_based_detection cfg frame =
          shape_scan cfg frame.shape_contours := by
        simp [shape_based_detection, herr]
      rw [e]
      exact shape_scan_cases cfg frame.shape_contours
